import Mathlib

/-!
Shallow embedding of src/ros/src/tl_detector/tl_detector.py (class TLDetector).

Conventions of the embedding:
- Float coordinates are modelled as exact integers.  Every numeric test in the
  source is an order comparison between a Euclidean distance (math.sqrt of a sum
  of squares) and a nonnegative bound; the square root is strictly monotone on
  nonnegative reals, so each comparison d < b is embedded as the comparison of
  the squared quantities, which keeps all arithmetic exact and decidable.
- ROS messages are reduced to the fields the node actually reads: a pose is its
  position, a waypoint is its position, a traffic light is its position (the
  node never reads the light color from the message; the color comes from the
  classifier), a stop line is the position built by get_stop_line_positions
  with z = 0.
- Python exceptions are modelled with Except PyErr: IndexError from list
  indexing, AttributeError from querying a never-built (None) KD tree,
  ValueError from building a KD tree over an empty point list, and anything
  raised inside the cv bridge conversion or the classifier.  Python list
  indexing, including its negative-index behaviour, is modelled by pyIndex.
- The scipy KDTree 2D nearest-neighbour query is modelled as an exact linear
  argmin with ties broken in favour of the smallest index; all concrete
  instances below are tie free, so the modelled tie rule is never load bearing.
- The bridge conversion plus classifier call of one frame is passed to the
  functions as an opaque value (classify : Except PyErr Int), since the
  classifier is an external collaborator.
- Python False, returned by get_light_state when no image has arrived, is
  modelled as the integer 0, matching Python where False == 0.
-/

namespace TLDetector

/-- Decidable equality for Except, used to evaluate concrete runs. -/
instance {ε α : Type} [DecidableEq ε] [DecidableEq α] : DecidableEq (Except ε α) :=
  fun a b =>
    match a, b with
    | Except.ok x, Except.ok y =>
        if h : x = y then isTrue (by rw [h]) else isFalse (fun hh => h (Except.ok.inj hh))
    | Except.ok _, Except.error _ => isFalse (fun hh => Except.noConfusion hh)
    | Except.error _, Except.ok _ => isFalse (fun hh => Except.noConfusion hh)
    | Except.error e, Except.error f =>
        if h : e = f then isTrue (by rw [h]) else isFalse (fun hh => h (Except.error.inj hh))

/-- A Python runtime exception surfacing in the node. -/
inductive PyErr where
  | indexError
  | attributeError
  | valueError
  | bridgeOrClassifierError
deriving DecidableEq, Repr

/-- A 3D position (pose.pose.position of a ROS message), floats as integers. -/
structure Position where
  x : Int
  y : Int
  z : Int
deriving DecidableEq, Repr

/-- Squared 3D Euclidean distance: embeds distance_of_positions (line 208),
which is math.sqrt of this quantity; all uses compare it with nonnegative
bounds, so the squares compare identically. -/
def dist2 (p q : Position) : Int :=
  (p.x - q.x) * (p.x - q.x) + (p.y - q.y) * (p.y - q.y) + (p.z - q.z) * (p.z - q.z)

/-- Squared 2D Euclidean distance, used by the KD-tree model. -/
def dist2d (p q : Int × Int) : Int :=
  (p.1 - q.1) * (p.1 - q.1) + (p.2 - q.2) * (p.2 - q.2)

/-- MAX_DISTANCE = sys.maxint (line 19), the initial minimal distance of
get_closest_index. -/
def MAX_DISTANCE : Int := 9223372036854775807

/-- Square of MAX_DISTANCE, the initial minimum in the squared embedding. -/
def MAX_DISTANCE_SQ : Int := MAX_DISTANCE * MAX_DISTANCE

/-- UNKNOWN = -1 (line 18), the sentinel index. -/
def UNKNOWN : Int := -1

/-- STATE_COUNT_THRESHOLD = 3 (line 17). -/
def STATE_COUNT_THRESHOLD : Nat := 3

/-- TrafficLight.RED from styx_msgs. -/
def TL_RED : Int := 0

/-- TrafficLight.YELLOW from styx_msgs. -/
def TL_YELLOW : Int := 1

/-- TrafficLight.GREEN from styx_msgs. -/
def TL_GREEN : Int := 2

/-- TrafficLight.UNKNOWN from styx_msgs. -/
def TL_UNKNOWN : Int := 4

/-- Square of the local distance_tolerance = 300 (line 155). -/
def distance_tolerance_sq : Int := 300 * 300

/-- Python list indexing xs[i]: negative indices count from the end, out of
range raises IndexError (modelled as none). -/
def pyIndex {α : Type} (xs : List α) (i : Int) : Option α :=
  let j := if i < 0 then i + xs.length else i
  if 0 ≤ j then xs.get? j.toNat else none

/-- The loop of get_closest_index (lines 197-201): scan positions keeping the
first index whose (squared) distance strictly improves the current minimum.
Arguments: remaining list, index of its head in the original list, current
minimal (squared) distance, current best index. -/
def closestIndexAux (pose : Position) : List Position → Nat → Int → Int → Int
  | [], _, _, index => index
  | p :: rest, i, minimal, index =>
      if dist2 pose p < minimal then
        closestIndexAux pose rest (i + 1) (dist2 pose p) (Int.ofNat i)
      else
        closestIndexAux pose rest (i + 1) minimal index

/-- get_closest_index (lines 193-203): minimal distance starts at MAX_DISTANCE
and the returned index starts at the UNKNOWN sentinel. -/
def get_closest_index (pose : Position) (positions : List Position) : Int :=
  closestIndexAux pose positions 0 MAX_DISTANCE_SQ UNKNOWN

/-- The KD-tree query loop: exact 2D argmin, smallest index on ties. -/
def kdQueryAux (q : Int × Int) : List (Int × Int) → Nat → Int → Nat → Nat
  | [], _, _, best => best
  | p :: rest, i, bestd, best =>
      if dist2d q p < bestd then kdQueryAux q rest (i + 1) (dist2d q p) i
      else kdQueryAux q rest (i + 1) bestd best

/-- Debouncing state of the node: self.state, self.last_state, self.last_wp,
self.state_count (lines 57-60). -/
structure DebouncerState where
  state : Int
  last_state : Int
  last_wp : Int
  state_count : Nat
deriving DecidableEq, Repr

/-- Mutable fields of TLDetector read by the embedded methods. -/
structure DetectorState where
  pose : Option Position
  waypoints : Option (List Position)
  waypoints_2d : Option (List (Int × Int))
  waypoint_tree : Option (List (Int × Int))
  lights : List Position
  stop_line_positions : List Position
  deb : DebouncerState
deriving DecidableEq, Repr

/-- The state right after __init__ (before any message): pose and waypoints
None, empty light list, debouncer at (UNKNOWN color, UNKNOWN color, -1, 0).
The stop lines come from static configuration. -/
def initState (stop_lines : List Position) : DetectorState :=
  { pose := none
  , waypoints := none
  , waypoints_2d := none
  , waypoint_tree := none
  , lights := []
  , stop_line_positions := stop_lines
  , deb := { state := TL_UNKNOWN, last_state := TL_UNKNOWN, last_wp := -1, state_count := 0 } }

/-- Python truthiness of an optional list: None and [] are falsy. -/
def pyFalsyList {α : Type} : Option (List α) → Bool
  | none => true
  | some [] => true
  | some (_ :: _) => false

/-- pose_cb (lines 64-65): last writer wins. -/
def pose_cb (s : DetectorState) (msg : Position) : DetectorState :=
  { s with pose := some msg }

/-- traffic_cb (lines 73-74): the light list is replaced wholesale. -/
def traffic_cb (s : DetectorState) (msg : List Position) : DetectorState :=
  { s with lights := msg }

/-- waypoints_cb (lines 67-71).  When self.waypoints_2d is falsy (None or []),
line 69 stores the 2D projection and line 70 builds the KD tree; building a
KD tree over an empty point list raises ValueError, in which case line 71
(self.waypoints = waypoints) is not reached and the callback aborts after
having stored the empty 2D list.  Otherwise only line 71 runs, so every
delivery replaces self.waypoints. -/
def waypoints_cb (s : DetectorState) (msg : List Position) : DetectorState × Option PyErr :=
  if pyFalsyList s.waypoints_2d then
    let w2d := msg.map (fun p => (p.x, p.y))
    match msg with
    | [] => ({ s with waypoints_2d := some w2d }, some PyErr.valueError)
    | _ :: _ =>
        ({ s with waypoints_2d := some w2d, waypoint_tree := some w2d,
                  waypoints := some msg }, none)
  else
    ({ s with waypoints := some msg }, none)

/-- get_closest_waypoint (lines 107-118): queries self.waypoint_tree.  A query
on a tree that was never built (None) raises AttributeError. -/
def get_closest_waypoint (s : DetectorState) (x y : Int) : Except PyErr Nat :=
  match s.waypoint_tree with
  | none => Except.error PyErr.attributeError
  | some [] => Except.error PyErr.valueError
  | some (p :: rest) => Except.ok (kdQueryAux (x, y) rest 1 (dist2d (x, y) p) 0)

/-- get_closest_light (lines 190-191). -/
def get_closest_light (s : DetectorState) (pose : Position) : Int :=
  get_closest_index pose s.lights

/-- get_closest_stop_line (lines 205-206). -/
def get_closest_stop_line (s : DetectorState) (pose : Position) : Int :=
  get_closest_index pose s.stop_line_positions

/-- get_light_state (lines 120-142).  The light argument is never read by the
body, so it is dropped.  When has_image is false the Python code returns
False, which later int comparisons treat as 0.  Otherwise the result is the
bridge conversion plus classifier call on the stored frame, an external
computation passed in as classify; the body has no try/except, so an
exception from it propagates to the caller. -/
def get_light_state (has_image : Bool) (classify : Except PyErr Int) : Except PyErr Int :=
  if has_image = false then Except.ok 0
  else classify

/-- process_traffic_lights (lines 144-188), called from image_cb after
self.has_image was set to True.  Returns the pair (stop line waypoint index,
light color) or the sentinel (-1, TrafficLight.UNKNOWN); an uncaught Python
exception is an Except.error. -/
def process_traffic_lights (s : DetectorState) (classify : Except PyErr Int) :
    Except PyErr (Int × Int) :=
  match s.pose, s.waypoints with
  | some pose, some wps =>
      match get_closest_waypoint s pose.x pose.y with
      | Except.error e => Except.error e
      | Except.ok car_index =>
          match pyIndex wps (Int.ofNat car_index) with
          | none => Except.error PyErr.indexError
          | some car_position =>
              let light_index := get_closest_light s car_position
              if light_index ≠ UNKNOWN then
                match pyIndex s.lights light_index with
                | none => Except.error PyErr.indexError
                | some lightPos =>
                    match get_closest_waypoint s lightPos.x lightPos.y with
                    | Except.error e => Except.error e
                    | Except.ok light_waypoint_index =>
                        match pyIndex wps (Int.ofNat light_waypoint_index) with
                        | none => Except.error PyErr.indexError
                        | some light_position =>
                            if light_waypoint_index > car_index then
                              if dist2 car_position light_position < distance_tolerance_sq then
                                let stop_line_index := get_closest_stop_line s light_position
                                match pyIndex s.stop_line_positions stop_line_index with
                                | none => Except.error PyErr.indexError
                                | some stop_line_position =>
                                    match get_closest_waypoint s stop_line_position.x
                                        stop_line_position.y with
                                    | Except.error e => Except.error e
                                    | Except.ok stop_line_waypoint =>
                                        match get_light_state true classify with
                                        | Except.error e => Except.error e
                                        | Except.ok st =>
                                            Except.ok (Int.ofNat stop_line_waypoint, st)
                              else Except.ok (-1, TL_UNKNOWN)
                            else Except.ok (-1, TL_UNKNOWN)
              else Except.ok (-1, TL_UNKNOWN)
  | _, _ => Except.ok (-1, TL_UNKNOWN)

/-- Lines 95-105 of image_cb: the debouncing and publication step, given the
pair (light_wp, state) returned by process_traffic_lights.  Returns the new
debouncer state and the value published this frame, if any; the first branch
(raw color changed) publishes nothing.  self.state_count += 1 at line 105
runs in every branch, so the reset of the first branch leaves the count at
0 + 1 = 1. -/
def image_cb_publish (d : DebouncerState) (light_wp : Int) (st : Int) :
    DebouncerState × Option Int :=
  if d.state ≠ st then
    ({ d with state := st, state_count := 1 }, none)
  else if STATE_COUNT_THRESHOLD ≤ d.state_count then
    let wp := if st = TL_RED then light_wp else -1
    ({ d with last_state := d.state, last_wp := wp, state_count := d.state_count + 1 }, some wp)
  else
    ({ d with state_count := d.state_count + 1 }, some d.last_wp)

/-- image_cb (lines 76-105) for one frame whose bridge plus classifier outcome
is classify: runs process_traffic_lights, then the debouncing step.  An
exception aborts the callback with nothing published and the debouncer
untouched. -/
def image_cb (s : DetectorState) (classify : Except PyErr Int) :
    DetectorState × Option Int × Option PyErr :=
  match process_traffic_lights s classify with
  | Except.error e => (s, none, some e)
  | Except.ok (light_wp, st) =>
      let r := image_cb_publish s.deb light_wp st
      ({ s with deb := r.1 }, r.2, none)

/-- Iterates image_cb_publish over a list of frames, each frame given as the
pair (candidate stop index, raw color); returns the final debouncer state and
the per-frame publications. -/
def run_debouncer (d : DebouncerState) : List (Int × Int) → DebouncerState × List (Option Int)
  | [] => (d, [])
  | f :: rest =>
      let r := image_cb_publish d f.1 f.2
      let rs := run_debouncer r.1 rest
      (rs.1, r.2 :: rs.2)

/-- A concrete ready state: route of four waypoints 10 units apart along the x
axis, vehicle at the third (route index 2), one light at x = 30 (mapping to
route index 3), one stop line at x = 10 (mapping to route index 1). -/
def sRun : DetectorState :=
  { pose := some ⟨20, 0, 0⟩
  , waypoints := some [⟨0, 0, 0⟩, ⟨10, 0, 0⟩, ⟨20, 0, 0⟩, ⟨30, 0, 0⟩]
  , waypoints_2d := some [(0, 0), (10, 0), (20, 0), (30, 0)]
  , waypoint_tree := some [(0, 0), (10, 0), (20, 0), (30, 0)]
  , lights := [⟨30, 0, 0⟩]
  , stop_line_positions := [⟨10, 0, 0⟩]
  , deb := { state := TL_UNKNOWN, last_state := TL_UNKNOWN, last_wp := -1, state_count := 0 } }

/-- A concrete state whose single light sits 1000 units off the route: the
route waypoint nearest the light is only 10 units from the vehicle, although
the light itself is about 1000 units away. -/
def sFarLight : DetectorState :=
  { pose := some ⟨0, 0, 0⟩
  , waypoints := some [⟨0, 0, 0⟩, ⟨10, 0, 0⟩]
  , waypoints_2d := some [(0, 0), (10, 0)]
  , waypoint_tree := some [(0, 0), (10, 0)]
  , lights := [⟨10, 1000, 0⟩]
  , stop_line_positions := [⟨10, 0, 0⟩]
  , deb := { state := TL_UNKNOWN, last_state := TL_UNKNOWN, last_wp := -1, state_count := 0 } }

/-- A concrete state whose single light maps to a waypoint 400 units ahead of
the vehicle, beyond the 300-unit tolerance. -/
def sBeyondTol : DetectorState :=
  { pose := some ⟨0, 0, 0⟩
  , waypoints := some [⟨0, 0, 0⟩, ⟨400, 0, 0⟩]
  , waypoints_2d := some [(0, 0), (400, 0)]
  , waypoint_tree := some [(0, 0), (400, 0)]
  , lights := [⟨400, 0, 0⟩]
  , stop_line_positions := [⟨400, 0, 0⟩]
  , deb := { state := TL_UNKNOWN, last_state := TL_UNKNOWN, last_wp := -1, state_count := 0 } }

/-- A concrete state whose single light maps to route index 0 while the
vehicle is at route index 1: the light is behind the vehicle. -/
def sBehind : DetectorState :=
  { pose := some ⟨10, 0, 0⟩
  , waypoints := some [⟨0, 0, 0⟩, ⟨10, 0, 0⟩]
  , waypoints_2d := some [(0, 0), (10, 0)]
  , waypoint_tree := some [(0, 0), (10, 0)]
  , lights := [⟨0, 0, 0⟩]
  , stop_line_positions := [⟨0, 0, 0⟩]
  , deb := { state := TL_UNKNOWN, last_state := TL_UNKNOWN, last_wp := -1, state_count := 0 } }

/-- A concrete ready state with no lights at all. -/
def sNoLights : DetectorState :=
  { pose := some ⟨0, 0, 0⟩
  , waypoints := some [⟨0, 0, 0⟩, ⟨10, 0, 0⟩]
  , waypoints_2d := some [(0, 0), (10, 0)]
  , waypoint_tree := some [(0, 0), (10, 0)]
  , lights := []
  , stop_line_positions := [⟨10, 0, 0⟩]
  , deb := { state := TL_UNKNOWN, last_state := TL_UNKNOWN, last_wp := -1, state_count := 0 } }

/-- A concrete ready state with a relevant light 10 units ahead but an empty
stop line list. -/
def sNoStopLines : DetectorState :=
  { pose := some ⟨0, 0, 0⟩
  , waypoints := some [⟨0, 0, 0⟩, ⟨10, 0, 0⟩]
  , waypoints_2d := some [(0, 0), (10, 0)]
  , waypoint_tree := some [(0, 0), (10, 0)]
  , lights := [⟨10, 0, 0⟩]
  , stop_line_positions := []
  , deb := { state := TL_UNKNOWN, last_state := TL_UNKNOWN, last_wp := -1, state_count := 0 } }

/-- First route delivery used in the route-capture scenario. -/
def routeA : List Position := [⟨0, 0, 0⟩, ⟨10, 0, 0⟩]

/-- Second route delivery: same 2D projection as routeA, but the second
waypoint is raised 400 units in z. -/
def routeB : List Position := [⟨0, 0, 0⟩, ⟨10, 0, 400⟩]

/-- State before any route delivery: pose at the origin, one light and one
stop line at x = 10, delivered through the callbacks. -/
def sPreRoute : DetectorState :=
  pose_cb (traffic_cb (initState [⟨10, 0, 0⟩]) [⟨10, 0, 0⟩]) ⟨0, 0, 0⟩

/-- State after the first route delivery (routeA). -/
def sRouteA : DetectorState := (waypoints_cb sPreRoute routeA).1

/-- State after the second route delivery (routeB). -/
def sRouteB : DetectorState := (waypoints_cb sRouteA routeB).1

/-- A light position farther from the origin than sys.maxint. -/
def farPosition : Position := ⟨9223372036854775808, 0, 0⟩

/-- A debouncer state with raw color UNKNOWN and last published index 7. -/
def dSeven : DebouncerState :=
  { state := TL_UNKNOWN, last_state := TL_UNKNOWN, last_wp := 7, state_count := 0 }

/-- Helper for the theorems below: the scan of get_closest_index leaves the
running best index unchanged when no remaining candidate beats the running
minimum. -/
theorem closestIndexAux_untouched (pose : Position) :
    ∀ (l : List Position) (i : Nat) (m : Int) (idx : Int),
      (∀ p ∈ l, ¬ dist2 pose p < m) → closestIndexAux pose l i m idx = idx
  | [], _, _, _, _ => rfl
  | p :: rest, i, m, idx, h => by
      unfold closestIndexAux
      rw [if_neg (h p (List.mem_cons_self p rest))]
      exact closestIndexAux_untouched pose rest (i + 1) m idx
        (fun q hq => h q (List.mem_cons_of_mem p hq))

/-- Helper: when some remaining candidate is strictly below the running
minimum, the scan of get_closest_index returns the offset of the first
candidate realizing the minimum over the remaining list; that candidate is
below the running minimum, no candidate is strictly closer, and every earlier
candidate is strictly farther. -/
theorem closestIndexAux_found (pose : Position) (l : List Position) :
    ∀ (i : Nat) (m : Int) (idx : Int), (∃ p ∈ l, dist2 pose p < m) →
      ∃ k, ∃ hk : k < l.length,
        closestIndexAux pose l i m idx = Int.ofNat (i + k) ∧
        dist2 pose (l.get ⟨k, hk⟩) < m ∧
        (∀ j, ∀ hj : j < l.length,
          dist2 pose (l.get ⟨k, hk⟩) ≤ dist2 pose (l.get ⟨j, hj⟩)) ∧
        (∀ j, j < k → ∀ hj : j < l.length,
          dist2 pose (l.get ⟨k, hk⟩) < dist2 pose (l.get ⟨j, hj⟩)) := by
  induction l with
  | nil =>
      intro i m idx h
      simp at h
  | cons p rest ih =>
      intro i m idx h
      by_cases hp : dist2 pose p < m
      · by_cases hrest : ∃ q ∈ rest, dist2 pose q < dist2 pose p
        · rcases ih (i + 1) (dist2 pose p) (Int.ofNat i) hrest with
            ⟨k, hk, heq, hlt, hmin, hfirst⟩
          refine ⟨k + 1, Nat.succ_lt_succ hk, ?_, ?_, ?_, ?_⟩
          · unfold closestIndexAux
            rw [if_pos hp, heq]
            congr 1
            omega
          · simpa using lt_trans hlt hp
          · intro j hj
            match j with
            | 0 => simpa using le_of_lt hlt
            | j + 1 =>
                have hj' : j < rest.length := Nat.lt_of_succ_lt_succ hj
                simpa using hmin j hj'
          · intro j hjk hj
            match j with
            | 0 => simpa using hlt
            | j + 1 =>
                have hj' : j < rest.length := Nat.lt_of_succ_lt_succ hj
                have hjk' : j < k := Nat.lt_of_succ_lt_succ hjk
                simpa using hfirst j hjk' hj'
        · push_neg at hrest
          refine ⟨0, Nat.succ_pos _, ?_, by simpa using hp, ?_, ?_⟩
          · unfold closestIndexAux
            rw [if_pos hp,
              closestIndexAux_untouched pose rest (i + 1) (dist2 pose p) (Int.ofNat i)
                (fun q hq => not_lt.mpr (hrest q hq))]
            congr 1
          · intro j hj
            match j with
            | 0 => simp
            | j + 1 =>
                have hj' : j < rest.length := Nat.lt_of_succ_lt_succ hj
                simpa using hrest (rest.get ⟨j, hj'⟩) (rest.get_mem j hj')
          · intro j hjk hj
            omega
      · have hrest : ∃ q ∈ rest, dist2 pose q < m := by
          rcases h with ⟨q, hq, hqlt⟩
          rcases List.mem_cons.mp hq with rfl | hq'
          · exact absurd hqlt hp
          · exact ⟨q, hq', hqlt⟩
        rcases ih (i + 1) m idx hrest with ⟨k, hk, heq, hlt, hmin, hfirst⟩
        have hpm : m ≤ dist2 pose p := not_lt.mp hp
        refine ⟨k + 1, Nat.succ_lt_succ hk, ?_, by simpa using hlt, ?_, ?_⟩
        · unfold closestIndexAux
          rw [if_neg hp, heq]
          congr 1
          omega
        · intro j hj
          match j with
          | 0 => simpa using le_of_lt (lt_of_lt_of_le hlt hpm)
          | j + 1 =>
              have hj' : j < rest.length := Nat.lt_of_succ_lt_succ hj
              simpa using hmin j hj'
        · intro j hjk hj
          match j with
          | 0 => simpa using lt_of_lt_of_le hlt hpm
          | j + 1 =>
              have hj' : j < rest.length := Nat.lt_of_succ_lt_succ hj
              have hjk' : j < k := Nat.lt_of_succ_lt_succ hjk
              simpa using hfirst j hjk' hj'

/-- Helper: once the raw state is RED and the consecutive count has reached
the threshold, every further RED frame with candidate index s publishes s. -/
theorem run_debouncer_stable (s : Int) :
    ∀ (n : Nat) (d : DebouncerState), d.state = TL_RED →
      STATE_COUNT_THRESHOLD ≤ d.state_count →
      (run_debouncer d (List.replicate n (s, TL_RED))).2 = List.replicate n (some s)
  | 0, _, _, _ => rfl
  | n + 1, d, hs, hc => by
      have h1 : ¬ d.state ≠ TL_RED := by simp [hs]
      have step : image_cb_publish d s TL_RED =
          (⟨d.state, d.state, s, d.state_count + 1⟩, some s) := by
        unfold image_cb_publish
        rw [if_neg h1, if_pos hc, if_pos rfl]
      simp only [List.replicate_succ, run_debouncer, step]
      rw [run_debouncer_stable s n ⟨d.state, d.state, s, d.state_count + 1⟩ hs
        (Nat.le_succ_of_le hc)]

/-- C1 counterexample: in the state sFarLight the vehicle is at the origin
(which is also its nearest route position) and the selected nearest light is
at (10, 1000, 0), so the squared vehicle-to-light distance is 1000100, far
beyond the squared tolerance 90000; the claim then demands the sentinel, yet
process_traffic_lights returns the stop route index 1, because the code
measures the distance to the route position nearest the light (10 units
away) instead of to the light itself. -/
theorem C1_counterexample :
    sFarLight.pose = some ⟨0, 0, 0⟩ ∧
    get_closest_light sFarLight ⟨0, 0, 0⟩ = 0 ∧
    pyIndex sFarLight.lights 0 = some ⟨10, 1000, 0⟩ ∧
    ¬ dist2 ⟨0, 0, 0⟩ ⟨10, 1000, 0⟩ < distance_tolerance_sq ∧
    process_traffic_lights sFarLight (Except.ok TL_RED) = Except.ok (1, TL_RED) := by
  decide

/-- C1 (amended): the distance guard of process_traffic_lights compares the
route position nearest the vehicle with the route position nearest the
selected light, not the vehicle with the light; whenever that waypoint to
waypoint distance is not strictly below the tolerance, the decision cycle
returns the sentinel (-1, TrafficLight.UNKNOWN) and never a stop route
index, even if the light is the globally nearest light. -/
theorem C1_amended (s : DetectorState) (classify : Except PyErr Int)
    (pose car_position lightPos light_position : Position)
    (wps : List Position) (car_index light_waypoint_index : Nat) (light_index : Int)
    (h1 : s.pose = some pose) (h2 : s.waypoints = some wps)
    (h3 : get_closest_waypoint s pose.x pose.y = Except.ok car_index)
    (h4 : pyIndex wps (car_index : Int) = some car_position)
    (h5 : get_closest_light s car_position = light_index)
    (h6 : light_index ≠ UNKNOWN)
    (h7 : pyIndex s.lights light_index = some lightPos)
    (h8 : get_closest_waypoint s lightPos.x lightPos.y = Except.ok light_waypoint_index)
    (h9 : pyIndex wps (light_waypoint_index : Int) = some light_position)
    (h10 : car_index < light_waypoint_index)
    (h11 : ¬ dist2 car_position light_position < distance_tolerance_sq) :
    process_traffic_lights s classify = Except.ok (-1, TL_UNKNOWN) := by
  simp [process_traffic_lights, h1, h2, h3, h4, h5, h6, h7, h8, h9, h10, h11]

/-- C1 witness: in the state sBeyondTol the single light maps to the route
position at x = 400, which is 400 units from the route position of the
vehicle, beyond the 300-unit tolerance, and the decision cycle returns the
sentinel. -/
theorem C1_amended_witness :
    ¬ dist2 ⟨0, 0, 0⟩ ⟨400, 0, 0⟩ < distance_tolerance_sq ∧
    process_traffic_lights sBeyondTol (Except.ok TL_RED) = Except.ok (-1, TL_UNKNOWN) :=
  ⟨by decide,
    C1_amended sBeyondTol (Except.ok TL_RED) ⟨0, 0, 0⟩ ⟨0, 0, 0⟩ ⟨400, 0, 0⟩ ⟨400, 0, 0⟩
      [⟨0, 0, 0⟩, ⟨400, 0, 0⟩] 0 1 0 (by decide) (by decide) (by decide) (by decide)
      (by decide) (by decide) (by decide) (by decide) (by decide) (by decide) (by decide)⟩

/-- C2: if the route index that the nearest light maps to is less than or
equal to the route index of the vehicle, process_traffic_lights returns the
sentinel (-1, TrafficLight.UNKNOWN), regardless of the distance of the
light. -/
theorem C2_light_not_ahead_sentinel (s : DetectorState) (classify : Except PyErr Int)
    (pose car_position lightPos light_position : Position)
    (wps : List Position) (car_index light_waypoint_index : Nat) (light_index : Int)
    (h1 : s.pose = some pose) (h2 : s.waypoints = some wps)
    (h3 : get_closest_waypoint s pose.x pose.y = Except.ok car_index)
    (h4 : pyIndex wps (car_index : Int) = some car_position)
    (h5 : get_closest_light s car_position = light_index)
    (h6 : light_index ≠ UNKNOWN)
    (h7 : pyIndex s.lights light_index = some lightPos)
    (h8 : get_closest_waypoint s lightPos.x lightPos.y = Except.ok light_waypoint_index)
    (h9 : pyIndex wps (light_waypoint_index : Int) = some light_position)
    (h10 : light_waypoint_index ≤ car_index) :
    process_traffic_lights s classify = Except.ok (-1, TL_UNKNOWN) := by
  have h10' : ¬ car_index < light_waypoint_index := not_lt.mpr h10
  simp [process_traffic_lights, h1, h2, h3, h4, h5, h6, h7, h8, h9, h10']

/-- C2 witness: in the state sBehind the single light maps to route index 0
while the vehicle is at route index 1, and although the light is only 10
units away the decision cycle returns the sentinel. -/
theorem C2_light_not_ahead_sentinel_witness :
    (0 : Nat) ≤ 1 ∧
    process_traffic_lights sBehind (Except.ok TL_RED) = Except.ok (-1, TL_UNKNOWN) :=
  ⟨by decide,
    C2_light_not_ahead_sentinel sBehind (Except.ok TL_RED) ⟨10, 0, 0⟩ ⟨10, 0, 0⟩ ⟨0, 0, 0⟩
      ⟨0, 0, 0⟩ [⟨0, 0, 0⟩, ⟨10, 0, 0⟩] 1 0 0 (by decide) (by decide) (by decide) (by decide)
      (by decide) (by decide) (by decide) (by decide) (by decide) (by decide)⟩

/-- C8: when the latest pose is missing or the route has never been delivered,
process_traffic_lights returns the sentinel (-1, TrafficLight.UNKNOWN)
without raising. -/
theorem C8_not_ready_sentinel (s : DetectorState) (classify : Except PyErr Int)
    (h : s.pose = none ∨ s.waypoints = none) :
    process_traffic_lights s classify = Except.ok (-1, TL_UNKNOWN) := by
  rcases h with h | h
  · unfold process_traffic_lights
    rw [h]
  · unfold process_traffic_lights
    rw [h]
    cases s.pose <;> rfl

/-- C8 witness: in the initial state no pose has arrived and the decision
cycle yields the sentinel. -/
theorem C8_not_ready_sentinel_witness :
    (initState []).pose = none ∧
    process_traffic_lights (initState []) (Except.ok 0) = Except.ok (-1, TL_UNKNOWN) :=
  ⟨rfl, C8_not_ready_sentinel (initState []) (Except.ok 0) (Or.inl rfl)⟩

/-- C10: the strict ahead-of-vehicle check is applied only to the route index
of the light, not to the returned stop line route index.  In the state sRun
the vehicle maps to route index 2 and the light maps to route index 3 (ahead
and within tolerance), yet process_traffic_lights returns the stop route
index 1, which is behind the vehicle. -/
theorem C10_stop_line_behind_vehicle :
    get_closest_waypoint sRun 20 0 = Except.ok 2 ∧
    get_closest_waypoint sRun 30 0 = Except.ok 3 ∧
    dist2 ⟨20, 0, 0⟩ ⟨30, 0, 0⟩ < distance_tolerance_sq ∧
    process_traffic_lights sRun (Except.ok TL_RED) = Except.ok (1, TL_RED) ∧
    (1 : Int) ≤ 2 := by
  decide

/-- C3 counterexample: starting from the debouncer state dSeven (raw state
UNKNOWN, last published index 7) and feeding four RED frames with candidate
stop index 5, the actual emissions are [nothing, 7, 7, 5]: the first frame is
a raw color change and publishes nothing, so the claimed emissions
[7, 7, 7, 5] are wrong about frame 1. -/
theorem C3_counterexample :
    dSeven.last_wp = 7 ∧
    (run_debouncer dSeven (List.replicate 4 (5, TL_RED))).2 =
      [none, some 7, some 7, some 5] ∧
    [(none : Option Int), some 7, some 7, some 5] ≠ [some 7, some 7, some 7, some 5] := by
  decide

/-- C3 (amended): from any debouncer state whose raw state is not RED and
whose last published index is p, feeding 4 + n consecutive RED frames with
candidate stop index s publishes nothing on frame 1 (the raw color change
frame), p on frames 2 and 3, and s on frame 4 and on every following RED
frame. -/
theorem C3_amended (d : DebouncerState) (p s : Int) (n : Nat)
    (hstate : d.state ≠ TL_RED) (hlast : d.last_wp = p) :
    (run_debouncer d (List.replicate (4 + n) (s, TL_RED))).2 =
      [none, some p, some p] ++ List.replicate (n + 1) (some s) := by
  have e1 : image_cb_publish d s TL_RED =
      (⟨TL_RED, d.last_state, d.last_wp, 1⟩, none) := by
    unfold image_cb_publish
    rw [if_pos hstate]
  have e2 : image_cb_publish ⟨TL_RED, d.last_state, d.last_wp, 1⟩ s TL_RED =
      (⟨TL_RED, d.last_state, d.last_wp, 2⟩, some d.last_wp) := by
    unfold image_cb_publish
    simp [STATE_COUNT_THRESHOLD]
  have e3 : image_cb_publish ⟨TL_RED, d.last_state, d.last_wp, 2⟩ s TL_RED =
      (⟨TL_RED, d.last_state, d.last_wp, 3⟩, some d.last_wp) := by
    unfold image_cb_publish
    simp [STATE_COUNT_THRESHOLD]
  have e4 : image_cb_publish ⟨TL_RED, d.last_state, d.last_wp, 3⟩ s TL_RED =
      (⟨TL_RED, TL_RED, s, 4⟩, some s) := by
    unfold image_cb_publish
    simp [STATE_COUNT_THRESHOLD]
  have hrep : List.replicate (4 + n) (s, TL_RED) =
      (s, TL_RED) :: (s, TL_RED) :: (s, TL_RED) :: (s, TL_RED) ::
        List.replicate n (s, TL_RED) := by
    rw [Nat.add_comm]
    rfl
  rw [hrep]
  simp only [run_debouncer, e1, e2, e3, e4]
  rw [run_debouncer_stable s n ⟨TL_RED, TL_RED, s, 4⟩ rfl (by norm_num [STATE_COUNT_THRESHOLD])]
  simp [hlast, List.replicate_succ]

/-- C3 witness: from dSeven (raw state UNKNOWN, last published index 7),
five RED frames with candidate 5 publish [nothing, 7, 7, 5, 5]. -/
theorem C3_amended_witness :
    dSeven.state ≠ TL_RED ∧
    (run_debouncer dSeven (List.replicate (4 + 1) (5, TL_RED))).2 =
      [none, some 7, some 7] ++ List.replicate (1 + 1) (some 5) :=
  ⟨by decide, C3_amended dSeven 7 5 1 (by decide) rfl⟩

/-- C4 counterexample: in the state sRun the debouncer raw state is UNKNOWN
and the frame classifies RED, so the raw color differs from the previous raw
state; the claim demands that the unchanged last published index (-1) still
be emitted, but image_cb publishes nothing at all on this frame. -/
theorem C4_counterexample :
    sRun.deb.state = TL_UNKNOWN ∧
    process_traffic_lights sRun (Except.ok TL_RED) = Except.ok (1, TL_RED) ∧
    (image_cb sRun (Except.ok TL_RED)).2.1 = none ∧
    (none : Option Int) ≠ some sRun.deb.last_wp := by
  decide

/-- C4 (amended): on a frame whose raw color differs from the previous raw
state the node publishes nothing; on every other frame exactly one index is
published, namely the newly debounced index once the consecutive count has
reached the threshold and the unchanged last published index otherwise. -/
theorem C4_amended (d : DebouncerState) (light_wp st : Int) :
    (image_cb_publish d light_wp st).2 =
      (if d.state = st then
        (if STATE_COUNT_THRESHOLD ≤ d.state_count then
          some (if st = TL_RED then light_wp else -1)
        else some d.last_wp)
      else none) := by
  unfold image_cb_publish
  by_cases h : d.state = st
  · by_cases hc : STATE_COUNT_THRESHOLD ≤ d.state_count <;> simp [h, hc]
  · simp [h]

/-- C5 counterexample: in the state sNoStopLines there is a relevant light 10
units ahead of the vehicle but the stop line list is empty; the claim demands
the sentinel, but process_traffic_lights raises an IndexError (the scan over
the empty stop line list returns -1 and Python indexing of an empty list at
-1 fails). -/
theorem C5_counterexample :
    sNoStopLines.stop_line_positions = [] ∧
    process_traffic_lights sNoStopLines (Except.ok TL_RED) =
      Except.error PyErr.indexError ∧
    (Except.error PyErr.indexError : Except PyErr (Int × Int)) ≠
      Except.ok (-1, TL_UNKNOWN) := by
  decide

/-- C5 (amended): an empty light list makes the decision cycle return the
sentinel (-1, TrafficLight.UNKNOWN); an empty stop line list, however, only
yields the sentinel while no relevant light is selected: if a light ahead of
the vehicle and within tolerance is selected, the stop line lookup raises an
IndexError instead of returning the sentinel. -/
theorem C5_amended :
    (∀ (s : DetectorState) (classify : Except PyErr Int) (pose car_position : Position)
      (wps : List Position) (car_index : Nat),
      s.lights = [] →
      s.pose = some pose → s.waypoints = some wps →
      get_closest_waypoint s pose.x pose.y = Except.ok car_index →
      pyIndex wps (car_index : Int) = some car_position →
      process_traffic_lights s classify = Except.ok (-1, TL_UNKNOWN)) ∧
    (∀ (s : DetectorState) (classify : Except PyErr Int)
      (pose car_position lightPos light_position : Position)
      (wps : List Position) (car_index light_waypoint_index : Nat) (light_index : Int),
      s.stop_line_positions = [] →
      s.pose = some pose → s.waypoints = some wps →
      get_closest_waypoint s pose.x pose.y = Except.ok car_index →
      pyIndex wps (car_index : Int) = some car_position →
      get_closest_light s car_position = light_index →
      light_index ≠ UNKNOWN →
      pyIndex s.lights light_index = some lightPos →
      get_closest_waypoint s lightPos.x lightPos.y = Except.ok light_waypoint_index →
      pyIndex wps (light_waypoint_index : Int) = some light_position →
      car_index < light_waypoint_index →
      dist2 car_position light_position < distance_tolerance_sq →
      process_traffic_lights s classify = Except.error PyErr.indexError) := by
  constructor
  · intro s classify pose car_position wps car_index hlights h1 h2 h3 h4
    have h5 : get_closest_light s car_position = UNKNOWN := by
      unfold get_closest_light get_closest_index
      rw [hlights]
      exact rfl
    simp [process_traffic_lights, h1, h2, h3, h4, h5]
  · intro s classify pose car_position lightPos light_position wps car_index
      light_waypoint_index light_index hstop h1 h2 h3 h4 h5 h6 h7 h8 h9 h10 h11
    have hsl : get_closest_stop_line s light_position = UNKNOWN := by
      unfold get_closest_stop_line get_closest_index
      rw [hstop]
      exact rfl
    have hpy : pyIndex s.stop_line_positions UNKNOWN = none := by
      rw [hstop]
      rfl
    simp [process_traffic_lights, h1, h2, h3, h4, h5, h6, h7, h8, h9, h10, h11, hsl, hpy]

/-- C5 witness: with no lights the decision cycle in sNoLights yields the
sentinel, and with no stop lines but a relevant light the decision cycle in
sNoStopLines raises. -/
theorem C5_amended_witness :
    sNoLights.lights = [] ∧
    process_traffic_lights sNoLights (Except.ok 0) = Except.ok (-1, TL_UNKNOWN) ∧
    sNoStopLines.stop_line_positions = [] ∧
    process_traffic_lights sNoStopLines (Except.ok 0) = Except.error PyErr.indexError :=
  ⟨rfl,
    C5_amended.1 sNoLights (Except.ok 0) ⟨0, 0, 0⟩ ⟨0, 0, 0⟩ [⟨0, 0, 0⟩, ⟨10, 0, 0⟩] 0
      rfl (by decide) (by decide) (by decide) (by decide),
    rfl,
    C5_amended.2 sNoStopLines (Except.ok 0) ⟨0, 0, 0⟩ ⟨0, 0, 0⟩ ⟨10, 0, 0⟩ ⟨10, 0, 0⟩
      [⟨0, 0, 0⟩, ⟨10, 0, 0⟩] 0 1 0 rfl (by decide) (by decide) (by decide) (by decide)
      (by decide) (by decide) (by decide) (by decide) (by decide) (by decide) (by decide)⟩

/-- C6 counterexample: after the route routeA has been delivered and the
spatial index built, a second delivery routeB (same 2D projection, different
z) is not ignored: the stored route becomes routeB and the decision cycle
outcome changes from the stop route index 1 to the sentinel, because
positions are read from the latest delivery. -/
theorem C6_counterexample :
    sRouteB.waypoints = some routeB ∧
    routeB ≠ routeA ∧
    process_traffic_lights sRouteA (Except.ok TL_RED) = Except.ok (1, TL_RED) ∧
    process_traffic_lights sRouteB (Except.ok TL_RED) = Except.ok (-1, TL_UNKNOWN) := by
  decide

/-- C6 (amended): only the 2D projection and the spatial index are frozen
after the first build; once waypoints_2d is truthy, a later route delivery
changes neither of them, but it does replace the stored route sequence
(self.waypoints), which is the sequence decision cycles read positions from,
and the callback raises nothing. -/
theorem C6_amended (s : DetectorState) (msg : List Position)
    (h : pyFalsyList s.waypoints_2d = false) :
    (waypoints_cb s msg).1.waypoints = some msg ∧
    (waypoints_cb s msg).1.waypoints_2d = s.waypoints_2d ∧
    (waypoints_cb s msg).1.waypoint_tree = s.waypoint_tree ∧
    (waypoints_cb s msg).1.pose = s.pose ∧
    (waypoints_cb s msg).1.lights = s.lights ∧
    (waypoints_cb s msg).1.stop_line_positions = s.stop_line_positions ∧
    (waypoints_cb s msg).1.deb = s.deb ∧
    (waypoints_cb s msg).2 = none := by
  unfold waypoints_cb
  rw [h]
  simp

/-- C6 witness: after the first build (state sRouteA), delivering routeB
leaves the index untouched and replaces the stored route. -/
theorem C6_amended_witness :
    pyFalsyList sRouteA.waypoints_2d = false ∧
    (waypoints_cb sRouteA routeB).1.waypoints = some routeB ∧
    (waypoints_cb sRouteA routeB).1.waypoint_tree = sRouteA.waypoint_tree :=
  ⟨by decide, (C6_amended sRouteA routeB (by decide)).1,
    (C6_amended sRouteA routeB (by decide)).2.2.1⟩

/-- C7 counterexample: when the bridge conversion or the classifier raises on
a frame, the exception is not caught: process_traffic_lights evaluates to the
error, image_cb aborts with the error and publishes nothing, instead of
mapping the frame to UNKNOWN and continuing. -/
theorem C7_counterexample :
    process_traffic_lights sRun (Except.error PyErr.bridgeOrClassifierError) =
      Except.error PyErr.bridgeOrClassifierError ∧
    (image_cb sRun (Except.error PyErr.bridgeOrClassifierError)).2.2 =
      some PyErr.bridgeOrClassifierError ∧
    (image_cb sRun (Except.error PyErr.bridgeOrClassifierError)).2.1 = none ∧
    (Except.error PyErr.bridgeOrClassifierError : Except PyErr (Int × Int)) ≠
      Except.ok (1, TL_UNKNOWN) := by
  decide

/-- C7 (amended): get_light_state contains no exception boundary; any failure
of the bridge conversion or of the classifier propagates unchanged out of
get_light_state and out of process_traffic_lights (shown on the reachable
state sRun in which the classifier is invoked), aborting the decision cycle
for that frame rather than being mapped to UNKNOWN. -/
theorem C7_amended (e : PyErr) :
    get_light_state true (Except.error e) = Except.error e ∧
    process_traffic_lights sRun (Except.error e) = Except.error e ∧
    (image_cb sRun (Except.error e)).2.1 = none ∧
    (image_cb sRun (Except.error e)).2.2 = some e := by
  refine ⟨rfl, ?_, ?_, ?_⟩ <;> cases e <;> decide

/-- C9 counterexample: for the single candidate at x = 2 to the 63, whose
distance from the origin query exceeds sys.maxint, get_closest_index returns
-1 rather than an index in [0, 1): the scan only accepts candidates strictly
closer than the sys.maxint initial minimum. -/
theorem C9_counterexample :
    ([farPosition] : List Position) ≠ [] ∧
    ¬ dist2 ⟨0, 0, 0⟩ farPosition < MAX_DISTANCE_SQ ∧
    get_closest_index ⟨0, 0, 0⟩ [farPosition] = -1 := by
  decide

/-- C9 (amended): for every candidate list containing at least one candidate
strictly closer to the query than sys.maxint, get_closest_index returns the
first index realizing the minimal 3D Euclidean distance: the index is in
[0, length), no candidate is strictly closer, and every earlier candidate is
strictly farther; determinism is immediate since the embedding is a pure
function of the query and the list.  When every candidate is at distance at
least sys.maxint (in particular when the list is empty) the scan returns the
-1 sentinel instead. -/
theorem C9_amended (pose : Position) (positions : List Position)
    (h : ∃ p ∈ positions, dist2 pose p < MAX_DISTANCE_SQ) :
    ∃ k, ∃ hk : k < positions.length,
      get_closest_index pose positions = Int.ofNat k ∧
      (∀ j, ∀ hj : j < positions.length,
        dist2 pose (positions.get ⟨k, hk⟩) ≤ dist2 pose (positions.get ⟨j, hj⟩)) ∧
      (∀ j, j < k → ∀ hj : j < positions.length,
        dist2 pose (positions.get ⟨k, hk⟩) < dist2 pose (positions.get ⟨j, hj⟩)) := by
  rcases closestIndexAux_found pose positions 0 MAX_DISTANCE_SQ UNKNOWN h with
    ⟨k, hk, heq, _, hmin, hfirst⟩
  refine ⟨k, hk, ?_, hmin, hfirst⟩
  unfold get_closest_index
  rw [heq]
  congr 1
  omega

/-- C9 witness: querying from the origin against the candidates at x = 3, 1,
1 selects index 1, the first of the two tied minimizers. -/
theorem C9_amended_witness :
    (∃ p ∈ ([⟨3, 0, 0⟩, ⟨1, 0, 0⟩, ⟨1, 0, 0⟩] : List Position),
      dist2 ⟨0, 0, 0⟩ p < MAX_DISTANCE_SQ) ∧
    ∃ k, ∃ hk : k < ([⟨3, 0, 0⟩, ⟨1, 0, 0⟩, ⟨1, 0, 0⟩] : List Position).length,
      get_closest_index ⟨0, 0, 0⟩ [⟨3, 0, 0⟩, ⟨1, 0, 0⟩, ⟨1, 0, 0⟩] = Int.ofNat k ∧
      (∀ j, ∀ hj : j < ([⟨3, 0, 0⟩, ⟨1, 0, 0⟩, ⟨1, 0, 0⟩] : List Position).length,
        dist2 ⟨0, 0, 0⟩ (([⟨3, 0, 0⟩, ⟨1, 0, 0⟩, ⟨1, 0, 0⟩] : List Position).get ⟨k, hk⟩) ≤
          dist2 ⟨0, 0, 0⟩ (([⟨3, 0, 0⟩, ⟨1, 0, 0⟩, ⟨1, 0, 0⟩] : List Position).get ⟨j, hj⟩)) ∧
      (∀ j, j < k → ∀ hj : j < ([⟨3, 0, 0⟩, ⟨1, 0, 0⟩, ⟨1, 0, 0⟩] : List Position).length,
        dist2 ⟨0, 0, 0⟩ (([⟨3, 0, 0⟩, ⟨1, 0, 0⟩, ⟨1, 0, 0⟩] : List Position).get ⟨k, hk⟩) <
          dist2 ⟨0, 0, 0⟩ (([⟨3, 0, 0⟩, ⟨1, 0, 0⟩, ⟨1, 0, 0⟩] : List Position).get ⟨j, hj⟩)) :=
  ⟨by decide, C9_amended ⟨0, 0, 0⟩ [⟨3, 0, 0⟩, ⟨1, 0, 0⟩, ⟨1, 0, 0⟩] (by decide)⟩

end TLDetector
